import Mathlib

/-!
Verification of the BleBox device-model core (`blebox_uniapi/box.py`) against its
natural-language specification.

The development shallowly embeds the Python module: JSON values become the
inductive `Json`; the dynamic behaviour of Python operators (`==`, `for ... in`,
subscripting, `str()`) is made explicit; fallible code returns `Except`.
Time stamps (`time.time()`) are modelled as integers: the coordination logic
uses only ordered comparisons on them, never float arithmetic beyond
subtraction of the constant 2.
-/

/-- JSON-like values as handled by the device client: Python `None`, `bool`,
`int`, `str`, `list` and `dict` (with string keys, as produced by parsing the
device's JSON responses). -/
inductive Json where
  | null
  | bool (b : Bool)
  | int (n : Int)
  | str (s : String)
  | arr (xs : List Json)
  | obj (fields : List (String × Json))

/-- Association-list lookup, modelling Python dict access `d[k]` / `d.get(k)`
for dicts with (unique) string keys. -/
def alookup {α : Type} : List (String × α) → String → Option α
  | [], _ => none
  | (k, v) :: rest, key => if k = key then some v else alookup rest key

mutual
/-- Python `==` on JSON values: `True == 1` and `False == 0` hold (bool is an
int subtype), lists compare elementwise in order, dicts compare as key-value
sets (same size and every binding of one present in the other). -/
def pyEq : Json → Json → Bool
  | .null, y => match y with | .null => true | _ => false
  | .bool a, y =>
    match y with
    | .bool b => a == b
    | .int m => (if a then (1 : Int) else 0) == m
    | _ => false
  | .int n, y =>
    match y with
    | .int m => n == m
    | .bool b => n == (if b then (1 : Int) else 0)
    | _ => false
  | .str s, y => match y with | .str t => s == t | _ => false
  | .arr xs, y => match y with | .arr ys => pyEqList xs ys | _ => false
  | .obj fs, y =>
    match y with
    | .obj gs => fs.length == gs.length && pyEqFields fs gs
    | _ => false

/-- Elementwise Python `==` on lists. -/
def pyEqList : List Json → List Json → Bool
  | [], ys => ys.isEmpty
  | _ :: _, [] => false
  | x :: xs, y :: ys => pyEq x y && pyEqList xs ys

/-- Every binding of the first dict is present (with a `pyEq`-equal value) in
the second. -/
def pyEqFields : List (String × Json) → List (String × Json) → Bool
  | [], _ => true
  | (k, v) :: fs, gs =>
    (match alookup gs k with
     | some w => pyEq v w
     | none => false) && pyEqFields fs gs
end

mutual
/-- Python `repr()` of a JSON value (strings rendered with single quotes, as
CPython does for quote-free strings; only used to build error messages). -/
def pyRepr : Json → String
  | .null => "None"
  | .bool b => if b then "True" else "False"
  | .int n => toString n
  | .str s => "\x27" ++ s ++ "\x27"
  | .arr xs => "[" ++ String.intercalate ", " (pyReprList xs) ++ "]"
  | .obj fs => "\x7b" ++ String.intercalate ", " (pyReprFields fs) ++ "\x7d"

/-- Renders each list element with `pyRepr`. -/
def pyReprList : List Json → List String
  | [] => []
  | x :: xs => pyRepr x :: pyReprList xs

/-- Renders each dict binding as `'key': value`. -/
def pyReprFields : List (String × Json) → List String
  | [] => []
  | (k, v) :: fs => ("\x27" ++ k ++ "\x27: " ++ pyRepr v) :: pyReprFields fs
end

/-- Python `str()` of a JSON value, as interpolated by f-strings: a string
renders bare, containers render via `repr` of their elements. -/
def pyStr : Json → String
  | .str s => s
  | v => pyRepr v

/-- Python type name of a JSON value, used in dynamic-error messages. -/
def pyTypeName : Json → String
  | .null => "NoneType"
  | .bool _ => "bool"
  | .int _ => "int"
  | .str _ => "str"
  | .arr _ => "list"
  | .obj _ => "dict"

/-- The single-quote character (used by the segment grammar `[name='value']`). -/
def quoteChar : Char := Char.ofNat 39

/-- Numeric value of a list of decimal digits, as Python `int()` reads them. -/
def digitsToNat (cs : List Char) : Nat :=
  cs.foldl (fun n c => 10 * n + (c.toNat - 48)) 0

/-- Splits a character list at the LAST occurrence of the two-character
pattern `p q`, returning the parts before and after the pattern. Mirrors the
greedy backtracking of the leading `(.*)` group in the source's regexes. -/
def splitLastPair (p q : Char) : List Char → Option (List Char × List Char)
  | [] => none
  | c :: cs =>
    match splitLastPair p q cs with
    | some (pre, post) => some (c :: pre, post)
    | none =>
      match cs with
      | c2 :: rest => if c = p && c2 = q then some ([], rest) else none
      | [] => none

/-- Splits a character list at the LAST occurrence of the character `p`. -/
def splitLastChar (p : Char) : List Char → Option (List Char × List Char)
  | [] => none
  | c :: cs =>
    match splitLastChar p cs with
    | some (pre, post) => some (c :: pre, post)
    | none => if c = p then some ([], cs) else none

/-- Python's `$` anchor also matches just before one final newline; stripping
it reproduces `re.match("^...$", s)` on the remaining characters. -/
def dropFinalNewline (cs : List Char) : List Char :=
  match cs.getLast? with
  | some c => if c = '\n' then cs.dropLast else cs
  | none => cs

/-- Matcher for the source regex `^\[(.*)='(.*)'\]$` (string-predicate
segment): group 1 is greedy, `.` does not match a newline. Returns the two
captured groups. -/
def parseStringPred (chunk : String) : Option (String × String) :=
  match dropFinalNewline chunk.data with
  | c :: body =>
    if c = '[' then
      let n := body.length
      if 2 ≤ n ∧ body.drop (n - 2) = [quoteChar, ']'] ∧ ¬ (body.take (n - 2)).contains '\n' then
        match splitLastPair '=' quoteChar (body.take (n - 2)) with
        | some (g1, g2) => some (⟨g1⟩, ⟨g2⟩)
        | none => none
      else none
    else none
  | [] => none

/-- Matcher for the source regex `^\[(.*)=(\d+)\]$` (integer-predicate
segment): group 1 is greedy, group 2 is a nonempty run of digits reaching the
closing bracket, converted with `int()`. -/
def parseIntPred (chunk : String) : Option (String × Nat) :=
  match dropFinalNewline chunk.data with
  | c :: body =>
    if c = '[' ∧ body.getLast? = some ']' then
      let mid := body.dropLast
      if ¬ mid.contains '\n' then
        match splitLastChar '=' mid with
        | some (g1, g2) =>
          if g2 ≠ [] ∧ g2.all Char.isDigit then some (⟨g1⟩, digitsToNat g2) else none
        | none => none
      else none
    else none
  | [] => none

/-- Matcher for the source regex `^\[(\d+)\]$` (index segment). -/
def parseIndex (chunk : String) : Option Nat :=
  match dropFinalNewline chunk.data with
  | c :: body =>
    if c = '[' ∧ body.getLast? = some ']' then
      let mid := body.dropLast
      if mid ≠ [] ∧ mid.all Char.isDigit then some (digitsToNat mid) else none
    else none
  | [] => none

/-- Python `str.split(sep)` for a single-character separator, accumulator
form; `""` splits to `[""]` and separators at the ends produce empty chunks,
exactly as in Python. -/
def splitCharAux (sep : Char) : List Char → List Char → List String
  | [], acc => [⟨acc.reverse⟩]
  | c :: cs, acc =>
    if c = sep then (⟨acc.reverse⟩ : String) :: splitCharAux sep cs []
    else splitCharAux sep cs (c :: acc)

/-- Python `path.split("/")`. -/
def pySplit (sep : Char) (s : String) : List String :=
  splitCharAux sep s.data []

/-- Failures of `Box.follow`: the reported path-resolution failure
(`JPathFailed`, carrying the failing-segment description, the full path and
the examined tree) versus dynamic Python errors (`TypeError` / `KeyError`)
escaping from unguarded iteration or subscripting, and the `RuntimeError`
reserved for a null tree. -/
inductive FollowError where
  | jpathFailed (desc : String) (path : String) (data : Json)
  | typeError (msg : String)
  | keyError (key : String)
  | runtimeError (msg : String)

/-- Python iteration `for item in tree`: lists yield elements, dicts yield
their keys, strings yield one-character strings, everything else raises
`TypeError`. -/
def pyIter : Json → Except FollowError (List Json)
  | .arr xs => .ok xs
  | .obj fs => .ok (fs.map fun kv => Json.str kv.1)
  | .str s => .ok (s.data.map fun ch => Json.str ch.toString)
  | v => .error (.typeError ("\x27" ++ pyTypeName v ++ "\x27 object is not iterable"))

/-- Python subscripting `item[name]` with a string subscript: dict lookup
(raising `KeyError` when absent), `TypeError` on every other receiver. -/
def pySubscript : Json → String → Except FollowError Json
  | .obj fs, key =>
    (match alookup fs key with
     | some v => Except.ok v
     | none => Except.error (.keyError key))
  | .str _, _ => .error (.typeError "string indices must be integers")
  | .arr _, _ => .error (.typeError "list indices must be integers or slices, not str")
  | v, _ => .error (.typeError ("\x27" ++ pyTypeName v ++ "\x27 object is not subscriptable"))

/-- The predicate loops of `Box.follow`: first element whose field `name`
compares `==` to `v`, propagating any dynamic error raised by `item[name]`. -/
def findPyMatch (name : String) (v : Json) : List Json → Except FollowError (Option Json)
  | [] => .ok none
  | item :: rest =>
    match pySubscript item name with
    | .error e => .error e
    | .ok f => if pyEq f v then .ok (some item) else findPyMatch name v rest

/-- Python `repr` of `list(d.keys())`, as interpolated in the bare-key error
message of `Box.follow`. -/
def pyReprKeys (fs : List (String × Json)) : String :=
  "[" ++ String.intercalate ", " (fs.map fun kv => "\x27" ++ kv.1 ++ "\x27") ++ "]"

/-- The segment loop of `Box.follow` (`box.py` lines 203-272): for each chunk
the four segment forms are tried in order (string predicate, integer
predicate, index, bare key), descending into the tree or failing. -/
def followChunks (data : Json) (path : String) : List String → Json → Except FollowError Json
  | [], t => .ok t
  | chunk :: rest, t =>
    match parseStringPred chunk with
    | some (name, value) =>
      (match pyIter t with
       | .error e => .error e
       | .ok items =>
         match findPyMatch name (.str value) items with
         | .error e => .error e
         | .ok (some item) => followChunks data path rest item
         | .ok none => .error (.jpathFailed ("with: " ++ name ++ "=" ++ value) path data))
    | none =>
      match parseIntPred chunk with
      | some (name, nv) =>
        (match t with
         | .arr items =>
           (match findPyMatch name (.int nv) items with
            | .error e => .error e
            | .ok (some item) => followChunks data path rest item
            | .ok none => .error (.jpathFailed ("with: " ++ name ++ "=" ++ toString nv) path data))
         | other => .error (.jpathFailed ("list expected but got " ++ pyStr other) path data))
      | none =>
        match parseIndex chunk with
        | some idx =>
          (match t with
           | .arr items =>
             if h : idx < items.length then followChunks data path rest (items.get ⟨idx, h⟩)
             else .error (.jpathFailed ("with value at index " ++ toString idx) path data)
           | _ => .error (.jpathFailed ("with value at index " ++ toString idx) path data))
        | none =>
          match t with
          | .obj fs =>
            (match alookup fs chunk with
             | some v => followChunks data path rest v
             | none =>
               .error (.jpathFailed ("item \x27" ++ chunk ++ "\x27 not among " ++ pyReprKeys fs) path data))
          | other =>
            .error (.jpathFailed
              ("unexpected item type: \x27" ++ chunk ++ "\x27 not in: " ++ pyStr other) path data)

/-- Embedding of `Box.follow(data, path)` (`box.py` lines 196-272): a null
tree is a programming error (`RuntimeError`), otherwise the path is split on
`/` and resolved segment by segment. -/
def follow (data : Json) (path : String) : Except FollowError Json :=
  match data with
  | .null => .error (.runtimeError "bad argument: data None")
  | d => followChunks d path (pySplit '/' path) d

/-- The field-validation failures raised by the `Box.check_*` validators, each
carrying the owning device's name, the field name, the offending value and
(for the range checks) the violated bound, exactly as passed at the raise
sites (`box.py` lines 283-321). -/
inductive FieldError where
  | badFieldMissing (deviceName field : String)
  | badFieldNotANumber (deviceName field : String) (value : Json)
  | badFieldNotAString (deviceName field : String) (value : Json)
  | badFieldNotRGBW (deviceName field : String) (value : Json)
  | badFieldExceedsMax (deviceName field : String) (value bound : Int)
  | badFieldLessThanMin (deviceName field : String) (value bound : Int)

/-- Embedding of `Box.check_int_range(self, value, field, max, min)`
(`box.py` lines 283-290); `deviceName` stands for `self.name`. The bounds are
only enforced when `max >= min`; otherwise the value passes unchanged. -/
def check_int_range (deviceName : String) (value : Int) (field : String) (max min : Int) :
    Except FieldError Int :=
  if max ≥ min then
    if value > max then .error (.badFieldExceedsMax deviceName field value max)
    else if value < min then .error (.badFieldLessThanMin deviceName field value min)
    else .ok value
  else .ok value

/-- Embedding of `Box.check_int(self, value, field, maximum, minimum)`
(`box.py` lines 292-299): `None` is missing; anything whose Python type is not
exactly `int` (booleans included, since `type(True) is bool`) is
not-a-number; ints are range-checked. -/
def check_int (deviceName : String) (value : Json) (field : String) (maximum minimum : Int) :
    Except FieldError Int :=
  match value with
  | .null => .error (.badFieldMissing deviceName field)
  | .int n => check_int_range deviceName n field maximum minimum
  | v => .error (.badFieldNotANumber deviceName field v)

/-- Embedding of `Box.check_rgbw(self, value, field)` (`box.py` lines
310-321): `None` is missing, non-strings are not-a-string, and a string fails
only when longer than 10 characters or of odd length; the characters
themselves are never inspected. -/
def check_rgbw (deviceName : String) (value : Json) (field : String) :
    Except FieldError Json :=
  match value with
  | .null => .error (.badFieldMissing deviceName field)
  | .str s =>
    if s.length > 10 ∨ s.length % 2 ≠ 0 then .error (.badFieldNotRGBW deviceName field (.str s))
    else .ok (.str s)
  | v => .error (.badFieldNotAString deviceName field v)

/-- A device command encoder: `value -> (HTTP method, path, optional body)`,
the shape produced by `self._api[command](value)` in `box.py` line 192. -/
def CmdEncoder : Type := Option Json → String × String × Option Json

/-- One resolved device configuration descriptor. Modelled from the spec:
the `box_types` module is not part of the examined source; per the spec a
config holds an API endpoint path, `model`/`subclass` metadata, per-command
encoders and per-feature-kind constructor-argument lists. -/
structure Conf where
  api_path : String
  model : Option String
  subclass : Option String
  api : List (String × CmdEncoder)
  features : List (String × List (List Json))

/-- Modelled from the spec: a config set is the per-type collection of
configs keyed by apiLevel range (spec: config lookup is a nested
type → apiLevel-range → descriptor rule table). -/
def ConfSet : Type := List (Int × Int × Conf)

/-- Modelled from the spec: `box_types.get_conf_set(type)` — selects the
config set registered for the (Python-equality) type key, empty when the type
is unknown. -/
def get_conf_set (table : List (String × ConfSet)) (type : Json) : ConfSet :=
  match table with
  | [] => []
  | (k, cs) :: rest => if pyEq type (.str k) then cs else get_conf_set rest type

/-- Modelled from the spec: `box_types.get_conf(level, conf_set)` — the
config whose apiLevel range contains the declared level, if any. -/
def get_conf (level : Int) : ConfSet → Option Conf
  | [] => none
  | (lo, hi, c) :: rest => if lo ≤ level ∧ level ≤ hi then some c else get_conf level rest

/-- Python `int(x)` on the values an identity payload may carry: ints pass
through, booleans coerce to 0/1, strings parse as optionally-signed decimal
(whitespace/underscore tolerance and non-decimal digits are not modelled; no
claim exercises them), everything else is a `TypeError`. -/
def pyInt : Json → Except String Int
  | .int n => .ok n
  | .bool b => .ok (if b then 1 else 0)
  | .str s =>
    (match s.data with
     | '-' :: ds =>
       if ds ≠ [] ∧ ds.all Char.isDigit then Except.ok (-(digitsToNat ds : Int))
       else Except.error ("invalid literal for int() with base 10: " ++ pyRepr (.str s))
     | '+' :: ds =>
       if ds ≠ [] ∧ ds.all Char.isDigit then Except.ok (digitsToNat ds : Int)
       else Except.error ("invalid literal for int() with base 10: " ++ pyRepr (.str s))
     | ds =>
       if ds ≠ [] ∧ ds.all Char.isDigit then Except.ok (digitsToNat ds : Int)
       else Except.error ("invalid literal for int() with base 10: " ++ pyRepr (.str s)))
  | v => .error ("int() argument must be a string or a number, not " ++ pyTypeName v)

/-- Errors aborting `Box.__init__`. `unsupportedBoxResponse` records the
positional arguments actually passed at each raise site: most sites pass
`(info, message)`, but the unsupported-type raise at `box.py` line 93 passes
only the message, so its payload component is `none`. -/
inductive BoxError where
  | unsupportedBoxResponse (payload : Option (List (String × Json))) (msg : String)
  | unsupportedBoxVersion (msg : String)
  | valueError (msg : String)

/-- The type-alias remap of `box.py` lines 63-64: a declared `wLightBox` whose
product is the legacy `wLightBoxS` resolves config under the alias type
`wLightBoxS`; every other pairing keeps the declared type. -/
def effective_type (type product : Json) : Json :=
  if pyEq type (.str "wLightBox") && pyEq product (.str "wLightBoxS") then .str "wLightBoxS"
  else type

/-- The fixed feature-kind dictionary of `box.py` lines 114-121, in
declaration order. The per-kind constructors (`AirQuality`, `Cover`, ...) are
external collaborators not part of the examined source; the model records the
constructor-argument tuples drawn from the config (so the `KeyError` wrap of
lines 122-130 is never exercised here). -/
def featureKinds : List String :=
  ["air_qualities", "covers", "sensors", "lights", "climates", "switches"]

/-- The successfully constructed device model: the fields assigned by
`Box.__init__` (`box.py` lines 99-134), including the initial coordination
state (`_last_real_update = None`, `_last_data = None`). -/
structure BoxData where
  data_path : String
  type : Json
  product : Json
  unique_id : Json
  name : Json
  firmware_version : Json
  hardware_version : Json
  api_version : Int
  model : Json
  subclass : Option String
  api : List (String × CmdEncoder)
  features : List (String × List (List Json))
  last_data : Option Json
  last_real_update : Option Int

/-- The transport collaborator plus its address, modelling the `api_session`
argument of `Box.__init__`: `async_api_get`/`async_api_post` return the
parsed JSON response or fail with a transport error. -/
structure ApiSession where
  host : String
  port : Nat
  async_api_get : String → Except String Json
  async_api_post : String → Option Json → Except String Json

/-- The f-string `f"\x7bapi_session.host\x7d:\x7bapi_session.port\x7d"` of
`box.py` line 38. -/
def boxAddress (api_session : ApiSession) : String :=
  api_session.host ++ ":" ++ toString api_session.port

/-- Embedding of the construction phase of `Box.__init__` (`box.py` lines
31-134): ordered fail-fast extraction of the identity fields with a
progressively enriched location string, the `wLightBox`/`wLightBoxS` remap,
config-set and config resolution, and assembly of the model fields. The
`table` and `default_api_level` parameters stand for the `box_types`
registry, which is not part of the examined source. -/
def boxInit (table : List (String × ConfSet)) (default_api_level : Int)
    (api_session : ApiSession) (info : List (String × Json)) : Except BoxError BoxData :=
  let address := boxAddress api_session
  let location0 := "Device at " ++ address
  match alookup info "id" with
  | none => .error (.unsupportedBoxResponse (some info) (location0 ++ " has no id"))
  | some unique_id =>
    let location1 := "Device:" ++ pyStr unique_id ++ " at " ++ address
    match alookup info "type" with
    | none => .error (.unsupportedBoxResponse (some info) (location1 ++ " has no type"))
    | some declared_type =>
      let product := (alookup info "product").getD declared_type
      let type := effective_type declared_type product
      let location2 := pyStr product ++ ":" ++ pyStr unique_id ++ " at " ++ address
      match alookup info "deviceName" with
      | none => .error (.unsupportedBoxResponse (some info) (location2 ++ " has no name"))
      | some name =>
        let location3 := "\x27" ++ pyStr name ++ "\x27 (" ++ pyStr product ++ ":"
          ++ pyStr unique_id ++ " at " ++ address ++ ")"
        match alookup info "fv" with
        | none =>
          .error (.unsupportedBoxResponse (some info) (location3 ++ " has no firmware version"))
        | some firmware_version =>
          let location4 := "\x27" ++ pyStr name ++ "\x27 (" ++ pyStr product ++ ":"
            ++ pyStr unique_id ++ "/" ++ pyStr firmware_version ++ " at " ++ address ++ ")"
          match alookup info "hv" with
          | none =>
            .error (.unsupportedBoxResponse (some info) (location4 ++ " has no hardware version"))
          | some hardware_version =>
            match pyInt ((alookup info "apiLevel").getD (.int default_api_level)) with
            | .error e => .error (.valueError e)
            | .ok level =>
              let config_set := get_conf_set table type
              if config_set.isEmpty then
                .error (.unsupportedBoxResponse none (location4 ++ " is not a supported type"))
              else
                match get_conf level config_set with
                | none =>
                  .error (.unsupportedBoxVersion
                    (location4 ++ " has unsupported version (" ++ toString level ++ ")."))
                | some config =>
                  .ok { data_path := config.api_path
                        type := type
                        product := product
                        unique_id := unique_id
                        name := name
                        firmware_version := firmware_version
                        hardware_version := hardware_version
                        api_version := level
                        model := (config.model.map Json.str).getD type
                        subclass := config.subclass
                        api := config.api
                        features := featureKinds.map
                          (fun k => (k, (alookup config.features k).getD []))
                        last_data := none
                        last_real_update := none }

/-- The mutable coordination state of a `Box`: the last-successful-fetch
timestamp (`_last_real_update`) and the snapshot (`_last_data`). -/
structure CoordState where
  last_real_update : Option Int
  last_data : Option Json

/-- Embedding of `Box._has_recent_data(self)` (`box.py` lines 323-325) at the
instant `now`: true when a last fetch timestamp exists and lies within the
2-second freshness window. -/
def has_recent_data (now : Int) (s : CoordState) : Bool :=
  match s.last_real_update with
  | some last => decide (now - 2 ≤ last)
  | none => false

/-- Failures escaping `Box._async_api`: the `NotImplementedError` guard for
unknown HTTP methods, and propagated transport errors. -/
inductive ApiError where
  | notImplemented (method : String)
  | transport (msg : String)

/-- Observable outcome of one `_async_api` run: final coordination state, the
transport calls performed (method, path, body), whether the semaphore gate
was acquired, whether it is still held afterwards (always false: the
`async with` block releases it on success and on failure alike), and the
propagated result. -/
structure ApiRun where
  state : CoordState
  calls : List (String × String × Option Json)
  gateAcquired : Bool
  gateHeldAfter : Bool
  result : Except ApiError Unit

/-- Embedding of `Box._async_api(self, is_update, method, path, post_data)`
(`box.py` lines 327-345) as one sequential (gate-serialized) run. The three
instants are the `time.time()` reads: `tOuter` at the pre-gate freshness
check, `tInner` at the re-check inside the gate, `tStamp` at the post-fetch
stamp. A fresh update returns before touching the gate; a successful fetch
replaces the snapshot wholesale and stamps the fetch time; a transport
failure propagates leaving the state untouched. -/
def async_api (session : ApiSession) (tOuter tInner tStamp : Int) (is_update : Bool)
    (method path : String) (post_data : Option Json) (s : CoordState) : ApiRun :=
  if method ≠ "GET" ∧ method ≠ "POST" then
    ⟨s, [], false, false, .error (.notImplemented method)⟩
  else if is_update && has_recent_data tOuter s then
    ⟨s, [], false, false, .ok ()⟩
  else if is_update && has_recent_data tInner s then
    ⟨s, [], true, false, .ok ()⟩
  else
    match (if method = "GET" then session.async_api_get path
           else session.async_api_post path post_data) with
    | .error e => ⟨s, [(method, path, post_data)], true, false, .error (.transport e)⟩
    | .ok response =>
      ⟨⟨some tStamp, some response⟩, [(method, path, post_data)], true, false, .ok ()⟩

/-- Embedding of `Box.async_update_data(self)` (`box.py` lines 182-183): a
debounced GET of the device's data path. -/
def async_update_data (session : ApiSession) (tOuter tInner tStamp : Int)
    (data_path : String) (s : CoordState) : ApiRun :=
  async_api session tOuter tInner tStamp true "GET" data_path none s

/-- Embedding of `Box.async_api_command(self, command, value)` (`box.py`
lines 191-194): the command's encoder is looked up (`KeyError` on an unknown
name — a programming error) and applied, the freshness timestamp is
invalidated before the gate is entered, and the encoded call runs with
`is_update = False`. -/
def async_api_command (api : List (String × CmdEncoder)) (session : ApiSession)
    (tOuter tInner tStamp : Int) (command : String) (value : Option Json) (s : CoordState) :
    Except String ApiRun :=
  match alookup api command with
  | none => .error ("KeyError: " ++ pyRepr (.str command))
  | some encoder =>
    let mpd := encoder value
    .ok (async_api session tOuter tInner tStamp false mpd.1 mpd.2.1 mpd.2.2 ⟨none, s.last_data⟩)

/-- The concrete tree of the C2 round-trip property. -/
def c2Tree : Json :=
  .obj [("a", .arr [.obj [("id", .int 1), ("v", .str "x")],
                    .obj [("id", .int 2), ("v", .str "y")]])]

/-- C2: on the tree `\x7b"a":[\x7b"id":1,"v":"x"\x7d,\x7b"id":2,"v":"y"\x7d]\x7d`,
`follow` with path `a/[id=2]/v` returns `"y"`, with path `a/[0]/v` returns
`"x"`, and with path `a/[id=9]/v` fails with a path-resolution error whose
failing-segment description names `id=9`. -/
theorem C2_path_resolver_round_trip :
    follow c2Tree "a/[id=2]/v" = .ok (.str "y")
    ∧ follow c2Tree "a/[0]/v" = .ok (.str "x")
    ∧ follow c2Tree "a/[id=9]/v"
        = .error (.jpathFailed "with: id=9" "a/[id=9]/v" c2Tree) :=
  ⟨rfl, rfl, rfl⟩

/-- C9 counterexample: two concrete refutations of the claim. First, the
string-predicate form applied to the empty mapping raises exactly the
reported path-resolution failure (the unguarded loop runs zero times and
finds no match), not a different error as the claim asserts for mappings.
Second, the integer-predicate form applied to the non-sequence tree `5` with
segment `[id=9]` raises the path-resolution failure whose failing-segment
description is `list expected but got 5` — it names the examined tree, and
is not the segment-naming description `with: id=9` the claim asserts. -/
theorem C9_counterexample_empty_mapping :
    follow (.obj []) "[x=\x27y\x27]"
      = .error (.jpathFailed "with: x=y" "[x=\x27y\x27]" (.obj []))
    ∧ follow (.int 5) "[id=9]"
      = .error (.jpathFailed "list expected but got 5" "[id=9]" (.int 5))
    ∧ ("list expected but got 5" : String) ≠ "with: id=9" :=
  ⟨rfl, rfl, by decide⟩

/-- C9 (amended): the string-predicate form iterates without a sequence
check: on a non-empty mapping it raises a dynamic `TypeError` (iterating the
keys and string-subscripting them), on a non-empty string it likewise raises
a dynamic `TypeError` (iterating the characters and subscripting them), on a
number or a boolean it raises a dynamic not-iterable `TypeError`, and on a
null tree the `RuntimeError` programming error is raised before any segment
is processed; but on an empty mapping or an empty string the loop runs zero
times, finds no match, and the reported path-resolution failure is raised.
The integer-predicate form on a non-sequence tree raises the path-resolution
failure describing the expected-list mismatch, whose description names the
examined tree, not the segment. -/
theorem C9_string_pred_unchecked_iteration :
    (∀ (k : String) (v : Json) (fs : List (String × Json)),
      follow (.obj ((k, v) :: fs)) "[x=\x27y\x27]"
        = .error (.typeError "string indices must be integers"))
    ∧ (∀ (c : Char) (t : String), follow (.str (String.mk (c :: t.data))) "[x=\x27y\x27]"
        = .error (.typeError "string indices must be integers"))
    ∧ (∀ n : Int, follow (.int n) "[x=\x27y\x27]"
        = .error (.typeError "\x27int\x27 object is not iterable"))
    ∧ (∀ b : Bool, follow (.bool b) "[x=\x27y\x27]"
        = .error (.typeError "\x27bool\x27 object is not iterable"))
    ∧ follow .null "[x=\x27y\x27]" = .error (.runtimeError "bad argument: data None")
    ∧ follow (.obj []) "[x=\x27y\x27]"
        = .error (.jpathFailed "with: x=y" "[x=\x27y\x27]" (.obj []))
    ∧ follow (.str "") "[x=\x27y\x27]"
        = .error (.jpathFailed "with: x=y" "[x=\x27y\x27]" (.str ""))
    ∧ (∀ n : Int, follow (.int n) "[x=1]"
        = .error (.jpathFailed ("list expected but got " ++ pyStr (.int n)) "[x=1]" (.int n)))
    ∧ (∀ (k : String) (v : Json) (fs : List (String × Json)),
      follow (.obj ((k, v) :: fs)) "[x=1]"
        = .error (.jpathFailed ("list expected but got " ++ pyStr (.obj ((k, v) :: fs)))
            "[x=1]" (.obj ((k, v) :: fs)))) :=
  ⟨fun _ _ _ => rfl, fun _ _ => rfl, fun _ => rfl, fun _ => rfl, rfl, rfl, rfl,
   fun _ => rfl, fun _ _ _ => rfl⟩

/-- C7: `check_int` rejects `None` as missing, rejects non-ints (numeric
strings and booleans included) as not-a-number, and range-checks ints only
when `maximum >= minimum`: above-max and below-min fail with the respective
bound errors, while under the sentinel `maximum < minimum` (e.g. the defaults
`maximum=-1, minimum=0`) the value passes unchanged. -/
theorem C7_check_int_validator :
    (∀ (dn f : String) (mx mn : Int),
      check_int dn .null f mx mn = .error (.badFieldMissing dn f))
    ∧ (∀ (dn f : String) (mx mn : Int) (s : String),
      check_int dn (.str s) f mx mn = .error (.badFieldNotANumber dn f (.str s)))
    ∧ (∀ (dn f : String) (mx mn : Int) (b : Bool),
      check_int dn (.bool b) f mx mn = .error (.badFieldNotANumber dn f (.bool b)))
    ∧ (∀ (dn f : String) (mx mn v : Int), mn ≤ mx → mx < v →
      check_int dn (.int v) f mx mn = .error (.badFieldExceedsMax dn f v mx))
    ∧ (∀ (dn f : String) (mx mn v : Int), mn ≤ mx → v < mn →
      check_int dn (.int v) f mx mn = .error (.badFieldLessThanMin dn f v mn))
    ∧ (∀ (dn f : String) (mx mn v : Int), mx < mn →
      check_int dn (.int v) f mx mn = .ok v)
    ∧ (∀ (dn f : String) (mx mn v : Int), mn ≤ v → v ≤ mx →
      check_int dn (.int v) f mx mn = .ok v) := by
  refine ⟨fun _ _ _ _ => rfl, fun _ _ _ _ _ => rfl, fun _ _ _ _ _ => rfl, ?_, ?_, ?_, ?_⟩
  · intro dn f mx mn v h1 h2
    simp only [check_int, check_int_range]
    rw [if_pos (by omega : mx ≥ mn), if_pos (by omega : v > mx)]
  · intro dn f mx mn v h1 h2
    simp only [check_int, check_int_range]
    rw [if_pos (by omega : mx ≥ mn), if_neg (by omega : ¬ v > mx),
      if_pos (by omega : v < mn)]
  · intro dn f mx mn v h1
    simp only [check_int, check_int_range]
    rw [if_neg (by omega : ¬ mx ≥ mn)]
  · intro dn f mx mn v h1 h2
    simp only [check_int, check_int_range]
    by_cases hc : mx ≥ mn
    · rw [if_pos hc, if_neg (by omega : ¬ v > mx), if_neg (by omega : ¬ v < mn)]
    · rw [if_neg hc]

/-- Witness for C7 at the concrete inputs of the spec's examples. -/
theorem C7_check_int_validator_witness :
    check_int "dev" .null "f" (-1) 0 = .error (.badFieldMissing "dev" "f")
    ∧ check_int "dev" (.str "5") "f" (-1) 0 = .error (.badFieldNotANumber "dev" "f" (.str "5"))
    ∧ check_int "dev" (.bool true) "f" 10 0 = .error (.badFieldNotANumber "dev" "f" (.bool true))
    ∧ check_int "dev" (.int 11) "f" 10 0 = .error (.badFieldExceedsMax "dev" "f" 11 10)
    ∧ check_int "dev" (.int (-1)) "f" 10 0 = .error (.badFieldLessThanMin "dev" "f" (-1) 0)
    ∧ check_int "dev" (.int 99) "f" (-1) 0 = .ok 99
    ∧ check_int "dev" (.int 5) "f" 10 0 = .ok 5 :=
  ⟨C7_check_int_validator.1 "dev" "f" (-1) 0,
   C7_check_int_validator.2.1 "dev" "f" (-1) 0 "5",
   C7_check_int_validator.2.2.1 "dev" "f" 10 0 true,
   C7_check_int_validator.2.2.2.1 "dev" "f" 10 0 11 (by norm_num) (by norm_num),
   C7_check_int_validator.2.2.2.2.1 "dev" "f" 10 0 (-1) (by norm_num) (by norm_num),
   C7_check_int_validator.2.2.2.2.2.1 "dev" "f" (-1) 0 99 (by norm_num),
   C7_check_int_validator.2.2.2.2.2.2 "dev" "f" 10 0 5 (by norm_num) (by norm_num)⟩

/-- C10: `check_rgbw` accepts every non-null string of even length at most
10 and returns it unchanged without inspecting the characters; in particular
the non-hexadecimal string `"zz"` and the empty string are accepted. -/
theorem C10_check_rgbw_shape_only :
    (∀ (dn f t : String), t.length ≤ 10 → t.length % 2 = 0 →
      check_rgbw dn (.str t) f = .ok (.str t))
    ∧ check_rgbw "dev" (.str "zz") "f" = .ok (.str "zz")
    ∧ check_rgbw "dev" (.str "") "f" = .ok (.str "") := by
  refine ⟨?_, rfl, rfl⟩
  intro dn f t h1 h2
  simp only [check_rgbw]
  rw [if_neg (by omega : ¬ (t.length > 10 ∨ t.length % 2 ≠ 0))]

/-- Witness for C10 applied at the concrete even-length string `"abcd"`. -/
theorem C10_check_rgbw_shape_only_witness :
    check_rgbw "dev" (.str "abcd") "f" = .ok (.str "abcd") :=
  C10_check_rgbw_shape_only.1 "dev" "f" "abcd" (by decide) (by decide)

/-- C1: each missing required identity key (`id`, `type`, `deviceName`, `fv`,
`hv`, in extraction order) aborts construction with an unsupported-response
error identifying the missing field, whose location string contains every
field extracted before it: nothing before the id, then the id, then the
product (the type/product slot), then the quoted name, then the firmware
version. -/
theorem C1_missing_identity_keys :
    ∀ (table : List (String × ConfSet)) (dl : Int) (session : ApiSession)
      (info : List (String × Json)),
    (alookup info "id" = none →
      boxInit table dl session info = .error (.unsupportedBoxResponse (some info)
        ("Device at " ++ boxAddress session ++ " has no id")))
    ∧ (∀ uid, alookup info "id" = some uid → alookup info "type" = none →
      boxInit table dl session info = .error (.unsupportedBoxResponse (some info)
        ("Device:" ++ pyStr uid ++ " at " ++ boxAddress session ++ " has no type")))
    ∧ (∀ uid ty, alookup info "id" = some uid → alookup info "type" = some ty →
      alookup info "deviceName" = none →
      boxInit table dl session info = .error (.unsupportedBoxResponse (some info)
        (pyStr ((alookup info "product").getD ty) ++ ":" ++ pyStr uid ++ " at "
          ++ boxAddress session ++ " has no name")))
    ∧ (∀ uid ty nm, alookup info "id" = some uid → alookup info "type" = some ty →
      alookup info "deviceName" = some nm → alookup info "fv" = none →
      boxInit table dl session info = .error (.unsupportedBoxResponse (some info)
        ("\x27" ++ pyStr nm ++ "\x27 (" ++ pyStr ((alookup info "product").getD ty) ++ ":"
          ++ pyStr uid ++ " at " ++ boxAddress session ++ ")" ++ " has no firmware version")))
    ∧ (∀ uid ty nm fv, alookup info "id" = some uid → alookup info "type" = some ty →
      alookup info "deviceName" = some nm → alookup info "fv" = some fv →
      alookup info "hv" = none →
      boxInit table dl session info = .error (.unsupportedBoxResponse (some info)
        ("\x27" ++ pyStr nm ++ "\x27 (" ++ pyStr ((alookup info "product").getD ty) ++ ":"
          ++ pyStr uid ++ "/" ++ pyStr fv ++ " at " ++ boxAddress session
          ++ ")" ++ " has no hardware version"))) := by
  intro table dl session info
  refine ⟨?_, ?_, ?_, ?_, ?_⟩
  · intro h1
    simp only [boxInit, h1]
  · intro uid h1 h2
    simp only [boxInit, h1, h2]
  · intro uid ty h1 h2 h3
    simp only [boxInit, h1, h2, h3]
  · intro uid ty nm h1 h2 h3 h4
    simp only [boxInit, h1, h2, h3, h4]
  · intro uid ty nm fv h1 h2 h3 h4 h5
    simp only [boxInit, h1, h2, h3, h4, h5]

/-- A concrete transport session used by the witnesses. -/
def demoSession : ApiSession :=
  ⟨"192.168.1.2", 80, fun _ => .ok .null, fun _ _ => .ok .null⟩

/-- Witness for C1: concrete payloads missing each required key in turn, with
the location string growing by one extracted field each time. -/
theorem C1_missing_identity_keys_witness :
    boxInit [] 20 demoSession [] = .error (.unsupportedBoxResponse (some [])
      "Device at 192.168.1.2:80 has no id")
    ∧ boxInit [] 20 demoSession [("id", .str "x1")]
      = .error (.unsupportedBoxResponse (some [("id", .str "x1")])
        "Device:x1 at 192.168.1.2:80 has no type")
    ∧ boxInit [] 20 demoSession [("id", .str "x1"), ("type", .str "airSensor")]
      = .error (.unsupportedBoxResponse (some [("id", .str "x1"), ("type", .str "airSensor")])
        "airSensor:x1 at 192.168.1.2:80 has no name")
    ∧ boxInit [] 20 demoSession
        [("id", .str "x1"), ("type", .str "airSensor"), ("deviceName", .str "My device")]
      = .error (.unsupportedBoxResponse
        (some [("id", .str "x1"), ("type", .str "airSensor"), ("deviceName", .str "My device")])
        "\x27My device\x27 (airSensor:x1 at 192.168.1.2:80) has no firmware version")
    ∧ boxInit [] 20 demoSession
        [("id", .str "x1"), ("type", .str "airSensor"), ("deviceName", .str "My device"),
         ("fv", .str "0.987")]
      = .error (.unsupportedBoxResponse
        (some [("id", .str "x1"), ("type", .str "airSensor"), ("deviceName", .str "My device"),
               ("fv", .str "0.987")])
        "\x27My device\x27 (airSensor:x1/0.987 at 192.168.1.2:80) has no hardware version") :=
  ⟨(C1_missing_identity_keys [] 20 demoSession []).1 rfl,
   (C1_missing_identity_keys [] 20 demoSession [("id", .str "x1")]).2.1 (.str "x1") rfl rfl,
   (C1_missing_identity_keys [] 20 demoSession
     [("id", .str "x1"), ("type", .str "airSensor")]).2.2.1
     (.str "x1") (.str "airSensor") rfl rfl rfl,
   (C1_missing_identity_keys [] 20 demoSession
     [("id", .str "x1"), ("type", .str "airSensor"), ("deviceName", .str "My device")]).2.2.2.1
     (.str "x1") (.str "airSensor") (.str "My device") rfl rfl rfl rfl,
   (C1_missing_identity_keys [] 20 demoSession
     [("id", .str "x1"), ("type", .str "airSensor"), ("deviceName", .str "My device"),
      ("fv", .str "0.987")]).2.2.2.2
     (.str "x1") (.str "airSensor") (.str "My device") (.str "0.987") rfl rfl rfl rfl rfl⟩

/-- C6 (amended): with a complete identity payload, an unknown (effective)
type yields the unsupported-response error carrying the full location string
(the raise at `box.py` line 93 passes only the message, so unlike the
missing-key errors it does not carry the raw identity payload), while a known
type whose config set has no config for the declared apiLevel yields the
distinct unsupported-version error; in both cases construction returns an
error, so no feature controllers are built and no partially-built model is
returned. -/
theorem C6_config_resolution_failures :
    ∀ (table : List (String × ConfSet)) (dl : Int) (session : ApiSession)
      (info : List (String × Json)) (uid ty nm fv hv : Json) (level : Int),
    alookup info "id" = some uid → alookup info "type" = some ty →
    alookup info "deviceName" = some nm → alookup info "fv" = some fv →
    alookup info "hv" = some hv →
    pyInt ((alookup info "apiLevel").getD (.int dl)) = .ok level →
    (get_conf_set table (effective_type ty ((alookup info "product").getD ty)) = [] →
      boxInit table dl session info = .error (.unsupportedBoxResponse none
        ("\x27" ++ pyStr nm ++ "\x27 (" ++ pyStr ((alookup info "product").getD ty) ++ ":"
          ++ pyStr uid ++ "/" ++ pyStr fv ++ " at " ++ boxAddress session ++ ")"
          ++ " is not a supported type")))
    ∧ (∀ c cs,
      get_conf_set table (effective_type ty ((alookup info "product").getD ty)) = c :: cs →
      get_conf level (c :: cs) = none →
      boxInit table dl session info = .error (.unsupportedBoxVersion
        ("\x27" ++ pyStr nm ++ "\x27 (" ++ pyStr ((alookup info "product").getD ty) ++ ":"
          ++ pyStr uid ++ "/" ++ pyStr fv ++ " at " ++ boxAddress session ++ ")"
          ++ " has unsupported version (" ++ toString level ++ ")."))) := by
  intro table dl session info uid ty nm fv hv level h1 h2 h3 h4 h5 h6
  constructor
  · intro hEmpty
    simp only [boxInit, h1, h2, h3, h4, h5, h6, hEmpty, List.isEmpty_nil, if_true]
  · intro c cs hSet hConf
    simp only [boxInit, h1, h2, h3, h4, h5, h6, hSet, hConf, List.isEmpty_cons,
      Bool.false_eq_true, if_false]

/-- A complete identity payload whose type is registered in no config table. -/
def c6Info : List (String × Json) :=
  [("id", .str "x1"), ("type", .str "unknownBox"), ("deviceName", .str "d"),
   ("fv", .str "1"), ("hv", .str "2")]

/-- The message of the unsupported-type error raised for `c6Info`. -/
def c6Msg : String :=
  "\x27d\x27 (unknownBox:x1/1 at 192.168.1.2:80) is not a supported type"

/-- C6 counterexample: the claim states that the unsupported-type error
carries the raw identity payload, but the raise at `box.py` line 93 passes
only the message — at this concrete input the error's payload component is
`none`, and the error value the claim describes (payload `some c6Info`) is
not what construction returns. -/
theorem C6_counterexample_no_payload :
    boxInit [] 20 demoSession c6Info
      = .error (.unsupportedBoxResponse none c6Msg)
    ∧ boxInit [] 20 demoSession c6Info
      ≠ .error (.unsupportedBoxResponse (some c6Info) c6Msg) := by
  refine ⟨rfl, fun hc => ?_⟩
  rw [show boxInit [] 20 demoSession c6Info
      = .error (.unsupportedBoxResponse none c6Msg) from rfl] at hc
  simp only [Except.error.injEq, BoxError.unsupportedBoxResponse.injEq] at hc
  exact Option.noConfusion hc.1

/-- A config valid for apiLevels 1 through 5 only. -/
def c6Conf : Conf := ⟨"/api/device/state", none, none, [], []⟩

/-- Witness for C6: the unknown type `unknownBox` with an empty table hits
the unsupported-type error; registering `unknownBox` only for levels 1-5
while the default level is 20 hits the unsupported-version error. -/
theorem C6_config_resolution_failures_witness :
    boxInit [] 20 demoSession c6Info = .error (.unsupportedBoxResponse none c6Msg)
    ∧ boxInit [("unknownBox", [(1, 5, c6Conf)])] 20 demoSession c6Info
      = .error (.unsupportedBoxVersion
        "\x27d\x27 (unknownBox:x1/1 at 192.168.1.2:80) has unsupported version (20).") :=
  ⟨(C6_config_resolution_failures [] 20 demoSession c6Info
      (.str "x1") (.str "unknownBox") (.str "d") (.str "1") (.str "2") 20
      rfl rfl rfl rfl rfl rfl).1 rfl,
   (C6_config_resolution_failures [("unknownBox", [(1, 5, c6Conf)])] 20 demoSession c6Info
      (.str "x1") (.str "unknownBox") (.str "d") (.str "1") (.str "2") 20
      rfl rfl rfl rfl rfl rfl).2 (1, 5, c6Conf) [] rfl rfl⟩

/-- C8: a `wLightBox` payload whose product is `wLightBoxS` resolves its
config under the alias type `wLightBoxS` (the constructed model records the
alias type and that config's api path), a `wLightBox` payload with any other
string product resolves under `wLightBox` itself, and for every (type,
product) string pairing other than the special case the declared type is used
unchanged. -/
theorem C8_wlightbox_alias_remap :
    (∀ (table : List (String × ConfSet)) (dl : Int) (session : ApiSession)
       (info : List (String × Json)) (uid nm fv hv : Json) (level : Int) (cfg : Conf),
      alookup info "id" = some uid → alookup info "type" = some (.str "wLightBox") →
      alookup info "product" = some (.str "wLightBoxS") →
      alookup info "deviceName" = some nm → alookup info "fv" = some fv →
      alookup info "hv" = some hv →
      pyInt ((alookup info "apiLevel").getD (.int dl)) = .ok level →
      get_conf level (get_conf_set table (.str "wLightBoxS")) = some cfg →
      (boxInit table dl session info).toOption.map BoxData.data_path = some cfg.api_path
      ∧ (boxInit table dl session info).toOption.map BoxData.type = some (.str "wLightBoxS"))
    ∧ (∀ (table : List (String × ConfSet)) (dl : Int) (session : ApiSession)
       (info : List (String × Json)) (uid nm fv hv : Json) (p : String) (level : Int)
       (cfg : Conf),
      alookup info "id" = some uid → alookup info "type" = some (.str "wLightBox") →
      alookup info "product" = some (.str p) → p ≠ "wLightBoxS" →
      alookup info "deviceName" = some nm → alookup info "fv" = some fv →
      alookup info "hv" = some hv →
      pyInt ((alookup info "apiLevel").getD (.int dl)) = .ok level →
      get_conf level (get_conf_set table (.str "wLightBox")) = some cfg →
      (boxInit table dl session info).toOption.map BoxData.data_path = some cfg.api_path
      ∧ (boxInit table dl session info).toOption.map BoxData.type = some (.str "wLightBox"))
    ∧ (∀ t p : String, ¬ (t = "wLightBox" ∧ p = "wLightBoxS") →
      effective_type (.str t) (.str p) = .str t) := by
  refine ⟨?_, ?_, ?_⟩
  · intro table dl session info uid nm fv hv level cfg h1 h2 hp h3 h4 h5 h6 hcfg
    have het : effective_type (.str "wLightBox") ((alookup info "product").getD
        (.str "wLightBox")) = .str "wLightBoxS" := by
      rw [hp]
      rfl
    cases hcs : get_conf_set table (.str "wLightBoxS") with
    | nil => rw [hcs] at hcfg; exact absurd hcfg (by simp [get_conf])
    | cons c rest =>
      rw [hcs] at hcfg
      constructor
      · simp only [boxInit, h1, h2, h3, h4, h5, h6, het, hcs, hcfg, List.isEmpty_cons,
          Bool.false_eq_true, if_false, Except.toOption]
        rfl
      · simp only [boxInit, h1, h2, h3, h4, h5, h6, het, hcs, hcfg, List.isEmpty_cons,
          Bool.false_eq_true, if_false, Except.toOption]
        rfl
  · intro table dl session info uid nm fv hv p level cfg h1 h2 hp hne h3 h4 h5 h6 hcfg
    have het : effective_type (.str "wLightBox") ((alookup info "product").getD
        (.str "wLightBox")) = .str "wLightBox" := by
      rw [hp]
      simp only [Option.getD_some, effective_type, pyEq, beq_self_eq_true, Bool.true_and]
      rw [show (p == "wLightBoxS") = false from beq_eq_false_iff_ne.mpr hne]
      simp
    cases hcs : get_conf_set table (.str "wLightBox") with
    | nil => rw [hcs] at hcfg; exact absurd hcfg (by simp [get_conf])
    | cons c rest =>
      rw [hcs] at hcfg
      constructor
      · simp only [boxInit, h1, h2, h3, h4, h5, h6, het, hcs, hcfg, List.isEmpty_cons,
          Bool.false_eq_true, if_false, Except.toOption]
        rfl
      · simp only [boxInit, h1, h2, h3, h4, h5, h6, het, hcs, hcfg, List.isEmpty_cons,
          Bool.false_eq_true, if_false, Except.toOption]
        rfl
  · intro t p hne
    simp only [effective_type, pyEq]
    rw [if_neg]
    intro hc
    rw [Bool.and_eq_true, beq_iff_eq, beq_iff_eq] at hc
    exact hne hc

/-- The config registered under the base type `wLightBox` in the witness
table. -/
def c8ConfW : Conf := ⟨"/api/rgbw/state", none, none, [], []⟩

/-- The config registered under the alias type `wLightBoxS` in the witness
table. -/
def c8ConfS : Conf := ⟨"/api/light/state", none, none, [], []⟩

/-- A witness table registering both types at the same apiLevel (20) with
different configs. -/
def c8Table : List (String × ConfSet) :=
  [("wLightBox", [(20, 20, c8ConfW)]), ("wLightBoxS", [(20, 20, c8ConfS)])]

/-- A complete `wLightBox`/`wLightBoxS` identity payload. -/
def c8InfoS : List (String × Json) :=
  [("id", .str "x1"), ("type", .str "wLightBox"), ("product", .str "wLightBoxS"),
   ("deviceName", .str "d"), ("fv", .str "1"), ("hv", .str "2")]

/-- The same payload with a different product string. -/
def c8InfoW : List (String × Json) :=
  [("id", .str "x1"), ("type", .str "wLightBox"), ("product", .str "wLightBox"),
   ("deviceName", .str "d"), ("fv", .str "1"), ("hv", .str "2")]

/-- Witness for C8: at the same apiLevel the `wLightBoxS` product selects the
alias config and any other product selects the base config, and the two
selected api paths differ. -/
theorem C8_wlightbox_alias_remap_witness :
    (boxInit c8Table 20 demoSession c8InfoS).toOption.map BoxData.data_path
      = some "/api/light/state"
    ∧ (boxInit c8Table 20 demoSession c8InfoW).toOption.map BoxData.data_path
      = some "/api/rgbw/state"
    ∧ ("/api/light/state" : String) ≠ "/api/rgbw/state" :=
  ⟨(C8_wlightbox_alias_remap.1 c8Table 20 demoSession c8InfoS
      (.str "x1") (.str "d") (.str "1") (.str "2") 20 c8ConfS
      rfl rfl rfl rfl rfl rfl rfl rfl).1,
   (C8_wlightbox_alias_remap.2.1 c8Table 20 demoSession c8InfoW
      (.str "x1") (.str "d") (.str "1") (.str "2") "wLightBox" 20 c8ConfW
      rfl rfl rfl (by decide) rfl rfl rfl rfl rfl).1,
   by decide⟩

/-- A fresh update returns before touching the gate: no transport call, no
gate acquisition, state unchanged. -/
lemma update_fresh_noop (session : ApiSession) (tOuter tInner tStamp : Int) (dp : String)
    (s : CoordState) (h : has_recent_data tOuter s = true) :
    async_update_data session tOuter tInner tStamp dp s = ⟨s, [], false, false, .ok ()⟩ := by
  simp [async_update_data, async_api, h]

/-- A stale update performs the GET, stores the response and stamps the fetch
time. -/
lemma update_stale_fetch (session : ApiSession) (tOuter tInner tStamp : Int) (dp : String)
    (s : CoordState) (resp : Json)
    (h1 : has_recent_data tOuter s = false) (h2 : has_recent_data tInner s = false)
    (hg : session.async_api_get dp = .ok resp) :
    async_update_data session tOuter tInner tStamp dp s
      = ⟨⟨some tStamp, some resp⟩, [("GET", dp, none)], true, false, .ok ()⟩ := by
  simp [async_update_data, async_api, h1, h2, hg]

/-- A stale update whose GET fails propagates the transport error and leaves
the state untouched (gate released). -/
lemma update_stale_fetch_error (session : ApiSession) (tOuter tInner tStamp : Int)
    (dp : String) (s : CoordState) (e : String)
    (h1 : has_recent_data tOuter s = false) (h2 : has_recent_data tInner s = false)
    (hg : session.async_api_get dp = .error e) :
    async_update_data session tOuter tInner tStamp dp s
      = ⟨s, [("GET", dp, none)], true, false, .error (.transport e)⟩ := by
  simp [async_update_data, async_api, h1, h2, hg]

/-- A known command encodes its call and runs it with the freshness timestamp
already invalidated. -/
lemma command_run (api : List (String × CmdEncoder)) (session : ApiSession)
    (tOuter tInner tStamp : Int) (command : String) (value : Option Json) (s : CoordState)
    (encoder : CmdEncoder) (method path : String) (pd : Option Json)
    (ha : alookup api command = some encoder) (he : encoder value = (method, path, pd)) :
    async_api_command api session tOuter tInner tStamp command value s
      = .ok (async_api session tOuter tInner tStamp false method path pd ⟨none, s.last_data⟩) := by
  simp [async_api_command, ha, he]

/-- A non-update run with a valid method always performs its one call; on
success it stores the response and stamps the time. -/
lemma api_nonupdate_ok (session : ApiSession) (tOuter tInner tStamp : Int)
    (method path : String) (pd : Option Json) (s : CoordState) (resp : Json)
    (hm : method = "GET" ∨ method = "POST")
    (hok : (if method = "GET" then session.async_api_get path
            else session.async_api_post path pd) = .ok resp) :
    async_api session tOuter tInner tStamp false method path pd s
      = ⟨⟨some tStamp, some resp⟩, [(method, path, pd)], true, false, .ok ()⟩ := by
  rcases hm with hm | hm <;> subst hm <;> simp_all [async_api]

/-- A non-update run with a valid method whose transport call fails
propagates the failure with the state untouched. -/
lemma api_nonupdate_error (session : ApiSession) (tOuter tInner tStamp : Int)
    (method path : String) (pd : Option Json) (s : CoordState) (e : String)
    (hm : method = "GET" ∨ method = "POST")
    (herr : (if method = "GET" then session.async_api_get path
             else session.async_api_post path pd) = .error e) :
    async_api session tOuter tInner tStamp false method path pd s
      = ⟨s, [(method, path, pd)], true, false, .error (.transport e)⟩ := by
  rcases hm with hm | hm <;> subst hm <;> simp_all [async_api]

/-- C3: a fresh update (last successful fetch within the 2-second window)
returns without any transport call and without acquiring the gate; starting
stale, two updates issued within 2 seconds of each other cause exactly one
GET (the second is a no-op leaving the state unchanged), and an update issued
more than 2 seconds after the stamped fetch causes a second GET. Each run
carries its `time.time()` read instants; `t1o ≤ t1i ≤ t1s ≤ ...` expresses
that time does not run backwards across one operation. -/
theorem C3_update_debounce :
    (∀ (session : ApiSession) (tOuter tInner tStamp : Int) (dp : String) (s : CoordState),
      has_recent_data tOuter s = true →
      async_update_data session tOuter tInner tStamp dp s = ⟨s, [], false, false, .ok ()⟩)
    ∧ (∀ (session : ApiSession) (dp : String) (s0 : CoordState) (resp : Json)
        (t1o t1i t1s t2o t2i t2s t3o t3i t3s : Int),
      has_recent_data t1o s0 = false → has_recent_data t1i s0 = false →
      session.async_api_get dp = .ok resp →
      t1o ≤ t1i → t1i ≤ t1s →
      t2o - t1o ≤ 2 →
      t3o - t1s > 2 → t3o ≤ t3i →
      (async_update_data session t1o t1i t1s dp s0).calls = [("GET", dp, none)]
      ∧ (async_update_data session t1o t1i t1s dp s0).state = ⟨some t1s, some resp⟩
      ∧ async_update_data session t2o t2i t2s dp ⟨some t1s, some resp⟩
          = ⟨⟨some t1s, some resp⟩, [], false, false, .ok ()⟩
      ∧ (async_update_data session t3o t3i t3s dp ⟨some t1s, some resp⟩).calls
          = [("GET", dp, none)]) := by
  constructor
  · exact fun session tOuter tInner tStamp dp s h =>
      update_fresh_noop session tOuter tInner tStamp dp s h
  · intro session dp s0 resp t1o t1i t1s t2o t2i t2s t3o t3i t3s h1o h1i hget hm1 hm2 h2 h3 hm3
    have e1 := update_stale_fetch session t1o t1i t1s dp s0 resp h1o h1i hget
    have hf2 : has_recent_data t2o ⟨some t1s, some resp⟩ = true := by
      simp only [has_recent_data]
      exact decide_eq_true (by omega)
    have hf3o : has_recent_data t3o ⟨some t1s, some resp⟩ = false := by
      simp only [has_recent_data]
      exact decide_eq_false (by omega)
    have hf3i : has_recent_data t3i ⟨some t1s, some resp⟩ = false := by
      simp only [has_recent_data]
      exact decide_eq_false (by omega)
    refine ⟨by rw [e1], by rw [e1], ?_, ?_⟩
    · exact update_fresh_noop session t2o t2i t2s dp _ hf2
    · rw [update_stale_fetch session t3o t3i t3s dp _ resp hf3o hf3i hget]

/-- The transport session of the coordination witnesses: GETs return `7`,
POSTs return `8`. -/
def coordSession : ApiSession :=
  ⟨"192.168.1.2", 80, fun _ => .ok (.int 7), fun _ _ => .ok (.int 8)⟩

/-- Witness for C3: a fresh no-op at time 100 against a fetch stamped 99, and
the stale/fresh/stale scenario at times 100, 102 and 104. -/
theorem C3_update_debounce_witness :
    async_update_data coordSession 100 100 101 "/api/state" ⟨some 99, none⟩
      = ⟨⟨some 99, none⟩, [], false, false, .ok ()⟩
    ∧ (async_update_data coordSession 100 100 101 "/api/state" ⟨none, none⟩).calls
      = [("GET", "/api/state", none)]
    ∧ (async_update_data coordSession 100 100 101 "/api/state" ⟨none, none⟩).state
      = ⟨some 101, some (.int 7)⟩
    ∧ async_update_data coordSession 102 102 103 "/api/state" ⟨some 101, some (.int 7)⟩
      = ⟨⟨some 101, some (.int 7)⟩, [], false, false, .ok ()⟩
    ∧ (async_update_data coordSession 104 104 105 "/api/state" ⟨some 101, some (.int 7)⟩).calls
      = [("GET", "/api/state", none)] :=
  ⟨C3_update_debounce.1 coordSession 100 100 101 "/api/state" ⟨some 99, none⟩ (by decide),
   (C3_update_debounce.2 coordSession "/api/state" ⟨none, none⟩ (.int 7)
      100 100 101 102 102 103 104 104 105 rfl rfl rfl (by norm_num) (by norm_num)
      (by norm_num) (by norm_num) (by norm_num)).1,
   (C3_update_debounce.2 coordSession "/api/state" ⟨none, none⟩ (.int 7)
      100 100 101 102 102 103 104 104 105 rfl rfl rfl (by norm_num) (by norm_num)
      (by norm_num) (by norm_num) (by norm_num)).2.1,
   (C3_update_debounce.2 coordSession "/api/state" ⟨none, none⟩ (.int 7)
      100 100 101 102 102 103 104 104 105 rfl rfl rfl (by norm_num) (by norm_num)
      (by norm_num) (by norm_num) (by norm_num)).2.2.1,
   (C3_update_debounce.2 coordSession "/api/state" ⟨none, none⟩ (.int 7)
      100 100 101 102 102 103 104 104 105 rfl rfl rfl (by norm_num) (by norm_num)
      (by norm_num) (by norm_num) (by norm_num)).2.2.2⟩

/-- C4: a known command performs exactly one transport call regardless of the
pre-existing coordination state (fresh or not): the encoded call runs with
`is_update = False` so the freshness checks are skipped, the snapshot is
replaced by the response and a new fetch time is stamped, and an update
issued within 2 seconds of that stamp performs no transport call. -/
theorem C4_command_always_calls :
    ∀ (api : List (String × CmdEncoder)) (session : ApiSession) (tOuter tInner tStamp : Int)
      (command : String) (value : Option Json) (s : CoordState) (encoder : CmdEncoder)
      (method path : String) (pd : Option Json) (resp : Json),
    alookup api command = some encoder →
    encoder value = (method, path, pd) →
    (method = "GET" ∨ method = "POST") →
    (if method = "GET" then session.async_api_get path
     else session.async_api_post path pd) = .ok resp →
    async_api_command api session tOuter tInner tStamp command value s
      = .ok ⟨⟨some tStamp, some resp⟩, [(method, path, pd)], true, false, .ok ()⟩
    ∧ (∀ (t2o t2i t2s : Int) (dp : String), t2o - 2 ≤ tStamp →
      async_update_data session t2o t2i t2s dp ⟨some tStamp, some resp⟩
        = ⟨⟨some tStamp, some resp⟩, [], false, false, .ok ()⟩) := by
  intro api session tOuter tInner tStamp command value s encoder method path pd resp
    ha he hm hok
  constructor
  · rw [command_run api session tOuter tInner tStamp command value s encoder method path pd
      ha he,
      api_nonupdate_ok session tOuter tInner tStamp method path pd ⟨none, s.last_data⟩
      resp hm hok]
  · intro t2o t2i t2s dp h2
    exact update_fresh_noop session t2o t2i t2s dp _ (by
      simp only [has_recent_data]
      exact decide_eq_true (by omega))

/-- Witness for C4: a POST command issued while the state is still fresh
(stamped 100, command at 100-101) performs its one call, and the update at
102 is then a no-op. -/
theorem C4_command_always_calls_witness :
    async_api_command [("set", fun v => ("POST", "/api/set", v))] coordSession
      100 100 101 "set" (some (.int 1)) ⟨some 100, some (.int 7)⟩
      = .ok ⟨⟨some 101, some (.int 8)⟩, [("POST", "/api/set", some (.int 1))], true, false,
        .ok ()⟩
    ∧ async_update_data coordSession 102 102 103 "/api/state" ⟨some 101, some (.int 8)⟩
      = ⟨⟨some 101, some (.int 8)⟩, [], false, false, .ok ()⟩ :=
  ⟨(C4_command_always_calls [("set", fun v => ("POST", "/api/set", v))] coordSession
      100 100 101 "set" (some (.int 1)) ⟨some 100, some (.int 7)⟩
      (fun v => ("POST", "/api/set", v)) "POST" "/api/set" (some (.int 1)) (.int 8)
      rfl rfl (Or.inr rfl) rfl).1,
   (C4_command_always_calls [("set", fun v => ("POST", "/api/set", v))] coordSession
      100 100 101 "set" (some (.int 1)) ⟨some 100, some (.int 7)⟩
      (fun v => ("POST", "/api/set", v)) "POST" "/api/set" (some (.int 1)) (.int 8)
      rfl rfl (Or.inr rfl) rfl).2 102 102 103 "/api/state" (by norm_num)⟩

/-- C5 (amended): a failing transport call propagates the failure with the
gate released and the snapshot unchanged in both operations; the freshness
timestamp is unchanged for `update()`, while for `command()` it stays
invalidated (`None`) — it was cleared before the call and is not restored on
failure, so it does not keep its pre-call value. -/
theorem C5_transport_failure_state :
    (∀ (session : ApiSession) (tOuter tInner tStamp : Int) (dp : String) (s : CoordState)
       (e : String),
      has_recent_data tOuter s = false → has_recent_data tInner s = false →
      session.async_api_get dp = .error e →
      async_update_data session tOuter tInner tStamp dp s
        = ⟨s, [("GET", dp, none)], true, false, .error (.transport e)⟩)
    ∧ (∀ (api : List (String × CmdEncoder)) (session : ApiSession)
       (tOuter tInner tStamp : Int) (command : String) (value : Option Json) (s : CoordState)
       (encoder : CmdEncoder) (method path : String) (pd : Option Json) (e : String),
      alookup api command = some encoder →
      encoder value = (method, path, pd) →
      (method = "GET" ∨ method = "POST") →
      (if method = "GET" then session.async_api_get path
       else session.async_api_post path pd) = .error e →
      async_api_command api session tOuter tInner tStamp command value s
        = .ok ⟨⟨none, s.last_data⟩, [(method, path, pd)], true, false,
          .error (.transport e)⟩) := by
  constructor
  · exact fun session tOuter tInner tStamp dp s e h1 h2 hg =>
      update_stale_fetch_error session tOuter tInner tStamp dp s e h1 h2 hg
  · intro api session tOuter tInner tStamp command value s encoder method path pd e
      ha he hm herr
    rw [command_run api session tOuter tInner tStamp command value s encoder method path pd
      ha he,
      api_nonupdate_error session tOuter tInner tStamp method path pd ⟨none, s.last_data⟩
      e hm herr]

/-- The always-failing transport session of the C5 counterexample/witness. -/
def failSession : ApiSession :=
  ⟨"192.168.1.2", 80, fun _ => .error "boom", fun _ _ => .error "boom"⟩

/-- C5 counterexample: a command issued with a prior fetch timestamp of 100
whose transport call fails leaves the timestamp `None`, not the pre-call
value `some 100` — contradicting the claim that the freshness timestamp
remains exactly as it was before the call. -/
theorem C5_counterexample_command_timestamp :
    (async_api_command [("set", fun v => ("POST", "/api/set", v))] failSession
      100 100 101 "set" none ⟨some 100, some (.int 7)⟩)
      = .ok ⟨⟨none, some (.int 7)⟩, [("POST", "/api/set", none)], true, false,
        .error (.transport "boom")⟩
    ∧ (none : Option Int) ≠ some 100 :=
  ⟨rfl, by simp⟩

/-- Witness for C5 (amended): a failing update leaves state and timestamp
unchanged; a failing command keeps the snapshot but a `None` timestamp. -/
theorem C5_transport_failure_state_witness :
    async_update_data failSession 103 103 104 "/api/state" ⟨some 100, some (.int 7)⟩
      = ⟨⟨some 100, some (.int 7)⟩, [("GET", "/api/state", none)], true, false,
        .error (.transport "boom")⟩
    ∧ async_api_command [("set", fun v => ("POST", "/api/set", v))] failSession
      100 100 101 "set" none ⟨some 100, some (.int 7)⟩
      = .ok ⟨⟨none, some (.int 7)⟩, [("POST", "/api/set", none)], true, false,
        .error (.transport "boom")⟩ :=
  ⟨C5_transport_failure_state.1 failSession 103 103 104 "/api/state"
      ⟨some 100, some (.int 7)⟩ "boom" (by decide) (by decide) rfl,
   C5_transport_failure_state.2 [("set", fun v => ("POST", "/api/set", v))] failSession
      100 100 101 "set" none ⟨some 100, some (.int 7)⟩
      (fun v => ("POST", "/api/set", v)) "POST" "/api/set" none "boom"
      rfl rfl (Or.inr rfl) rfl⟩
